import Mathlib

/-
Formal model of the SatelliteQUICProxy repository: the software proxy
(proxy/src/quic_handler.cpp, quic_proxy.cpp, fpga_interface.cpp) and the
FPGA packet processor (fpga/src/quic_packet_processor.vhd), shallowly
embedded in Lean.

Bytes are modelled as Nat values below 256.  Machine integers are Nat with
an explicit reduction modulo 2^32 wherever the C++ type is uint32_t and the
operation can overflow.  Timestamps (std::chrono::steady_clock time points)
are modelled as milliseconds-since-start Nat values; durations computed with
duration_cast<milliseconds> are Nat subtraction (the clock is monotone, so
the C++ difference is non-negative).  The software model follows the
acceleration-disabled configuration (m_accelerationEnabled == false), in
which every `if (m_accelerationEnabled && m_fpgaInterface.isConnected())`
branch of quic_handler.cpp is skipped; `sendto` calls are modelled by
collecting the sent datagrams in an output list.
-/

set_option maxRecDepth 10000

namespace SatProxy

/-! ## FPGAInterface::simulateCompressionOperation (fpga_interface.cpp:1025-1121)

The software compression path.  COMPRESSION emits the 8-byte header
(magic "QCMP" then the 32-bit little-endian original size) followed by an
RLE-style body: a run of at least 4 identical bytes (run length capped at
255 by the `count < 255` loop guard) becomes the triple 0xFF, count, value;
shorter runs are copied literally.  DECOMPRESSION checks the magic, then
reads the body, expanding 0xFF markers followed by at least two more bytes
(the `i + 2 < inputData.size()` guard) and copying everything else. -/

/-- Encoding of one maximal run of `k` copies of byte `b`
(fpga_interface.cpp:1066-1078): the triple `0xFF, k, b` when `4 ≤ k`,
otherwise `k` literal copies. -/
def emitRun (b k : Nat) : List Nat :=
  if 4 ≤ k then [255, k, b] else List.replicate k b

/-- The compression loop (fpga_interface.cpp:1057-1079) with the current
run held as an accumulator: the `while` loop at line 1062 extends the run
while the next byte matches and `count < 255`; when the run ends it is
emitted and scanning restarts at the next byte. -/
def compressAux (b cnt : Nat) : List Nat → List Nat
  | [] => emitRun b cnt
  | c :: rest =>
    if c = b ∧ cnt < 255 then compressAux b (cnt + 1) rest
    else emitRun b cnt ++ compressAux c 1 rest

/-- Body of the compressed stream for a given input (the loop of
fpga_interface.cpp:1057-1079 over the whole input). -/
def compressBody : List Nat → List Nat
  | [] => []
  | b :: rest => compressAux b 1 rest

/-- The four header bytes holding `n` as a 32-bit little-endian value
(fpga_interface.cpp:1047-1051; the C++ value is `inputData.size()` cast to
uint32_t, hence the mod-2^8 on every byte). -/
def sizeBytesLE (n : Nat) : List Nat :=
  [n % 256, n / 2 ^ 8 % 256, n / 2 ^ 16 % 256, n / 2 ^ 24 % 256]

/-- FPGAInterface::simulateCompressionOperation, COMPRESSION branch
(fpga_interface.cpp:1039-1079). -/
def compress (input : List Nat) : List Nat :=
  [0x51, 0x43, 0x4D, 0x50] ++ sizeBytesLE input.length ++ compressBody input

/-- Body of the decompression loop (fpga_interface.cpp:1099-1114): a 0xFF
byte followed by at least two more bytes is an RLE marker and expands to
`count` copies of `value`; any other byte, and a 0xFF that is one of the
last two bytes, is copied literally. -/
def decompressBody : List Nat → List Nat
  | [] => []
  | 255 :: cnt :: v :: rest2 => List.replicate cnt v ++ decompressBody rest2
  | b :: rest => b :: decompressBody rest

/-- FPGAInterface::simulateCompressionOperation, DECOMPRESSION branch
(fpga_interface.cpp:1081-1114).  `none` models the `success = false`,
"Invalid compression format" return; the original-size header field is
read only to pre-allocate the buffer and does not affect the output. -/
def decompress (input : List Nat) : Option (List Nat) :=
  if input.length < 8 ∨ input.getD 0 0 ≠ 0x51 ∨ input.getD 1 0 ≠ 0x43 ∨
      input.getD 2 0 ≠ 0x4D ∨ input.getD 3 0 ≠ 0x50 then
    none
  else
    some (decompressBody (input.drop 8))

/-- C1. The spec requires `decompress(compress(B)) = B` for every byte
sequence `B` with `|B| ≤ 2^20`, and the repository's own compression
testbench checks that decompressed data matches the original.  The software
implementation violates this: a literal 0xFF byte in the input is emitted
verbatim by `compress` and then re-read by `decompress` as an RLE marker.
On the 3-byte input `FF 01 02` the round trip yields `02` instead. -/
theorem C1_compress_roundtrip_fails :
    decompress (compress [255, 1, 2]) = some [2] ∧ [2] ≠ [255, 1, 2] := by
  exact ⟨by decide, by decide⟩

/-! ## QUIC handler data model (quic_handler.h)

`QUICPacketType`, `QUICPacketHeader` and the handler's connection state.
The `PacketInfo` record (quic_handler.h:166-171) deliberately mirrors the
source: it has no retry counter.  `m_nextPacketNumber` is a uint32_t
(quic_handler.h:157), so its increment is taken modulo 2^32. -/

inductive QUICPacketType where
  | INITIAL
  | HANDSHAKE
  | ZERO_RTT
  | ONE_RTT
  | RETRY
  | VERSION_NEGOTIATION
deriving DecidableEq, Repr

structure QUICPacketHeader where
  ptype : QUICPacketType
  version : Nat
  destConnID : List Nat
  srcConnID : List Nat
  token : List Nat
  length : Nat
  packetNumber : Nat
deriving DecidableEq, Repr

structure PacketInfo where
  packetNumber : Nat
  sentTime : Nat
  acknowledged : Bool
  packetData : List Nat
deriving DecidableEq, Repr

structure Conn where
  connected : Bool
  bytesSent : Nat
  bytesReceived : Nat
  packetsSent : Nat
  packetsReceived : Nat
  lastActivity : Nat
  nextPacketNumber : Nat
  destConnID : List Nat
  srcConnID : List Nat
  sentPackets : List PacketInfo
  receivedPackets : List Nat
deriving DecidableEq, Repr

/-- A fresh handler as left by the QUICHandler constructor
(quic_handler.cpp:23-54) with a fixed zero source connection ID in place
of the RAND_bytes value: connected, all counters and the packet number
zero, empty tracker. -/
def connZero : Conn :=
  { connected := true
    bytesSent := 0
    bytesReceived := 0
    packetsSent := 0
    packetsReceived := 0
    lastActivity := 0
    nextPacketNumber := 0
    destConnID := []
    srcConnID := [0, 0, 0, 0, 0, 0, 0, 0]
    sentPackets := []
    receivedPackets := [] }

/-- 32-bit big-endian read `(b3 << 24) | (b2 << 16) | (b1 << 8) | b0`;
for bytes below 256 the bit ranges are disjoint, so the C++ bitwise-or is
ordinary addition. -/
def be32 (b3 b2 b1 b0 : Nat) : Nat :=
  b3 * 2 ^ 24 + b2 * 2 ^ 16 + b1 * 2 ^ 8 + b0

/-! ## QUICHandler::parsePacket (quic_handler.cpp:147-271)

Every `if (offset + k > length) return false` bounds check of the source
appears as an explicit length test.  Note what the source does NOT do: it
never checks connection-ID length fields against the 20-byte maximum, and
for short headers it never checks the reserved bits of the first byte. -/

/-- Tail of the long-header parse shared by the Initial and non-Initial
paths (quic_handler.cpp:221-239): one length byte restricted to 0-63,
then a fixed 4-byte packet number, then the payload. -/
def parseLongTail (data : List Nat) (ptype : QUICPacketType) (version : Nat)
    (destConnID srcConnID token : List Nat) (o : Nat) :
    Option (QUICPacketHeader × List Nat) :=
  if o + 1 > data.length then none
  else
    let payloadLen := data.getD o 0
    if 0x3F < payloadLen then none
    else if o + 1 + 4 > data.length then none
    else
      let pn := be32 (data.getD (o + 1) 0) (data.getD (o + 2) 0)
        (data.getD (o + 3) 0) (data.getD (o + 4) 0)
      some ({ ptype := ptype, version := version, destConnID := destConnID,
              srcConnID := srcConnID, token := token, length := payloadLen,
              packetNumber := pn }, data.drop (o + 5))

/-- QUICHandler::parsePacket.  Returns the header together with the
payload bytes, or `none` for the `return false` paths.  The short-header
branch (quic_handler.cpp:241-261) assumes an 8-byte DCID and a 4-byte
packet number; `version` is never assigned there (modelled as 0). -/
def parsePacket (data : List Nat) : Option (QUICPacketHeader × List Nat) :=
  if data.length < 4 then none
  else
    let firstByte := data.getD 0 0
    if 128 ≤ firstByte then
      let packetType := firstByte / 16 % 4
      if 1 + 4 > data.length then none
      else
        let version := be32 (data.getD 1 0) (data.getD 2 0) (data.getD 3 0)
          (data.getD 4 0)
        let ptype0 : QUICPacketType :=
          if packetType = 0 then .INITIAL
          else if packetType = 1 then .ZERO_RTT
          else if packetType = 2 then .HANDSHAKE
          else .RETRY
        let ptype := if version = 0 then .VERSION_NEGOTIATION else ptype0
        if 5 + 1 > data.length then none
        else
          let destConnIDLen := data.getD 5 0
          if 6 + destConnIDLen > data.length then none
          else
            let destConnID := (data.drop 6).take destConnIDLen
            let o := 6 + destConnIDLen
            if o + 1 > data.length then none
            else
              let srcConnIDLen := data.getD o 0
              if o + 1 + srcConnIDLen > data.length then none
              else
                let srcConnID := (data.drop (o + 1)).take srcConnIDLen
                let o2 := o + 1 + srcConnIDLen
                if ptype = .INITIAL then
                  if o2 + 1 > data.length then none
                  else
                    let tokenLen := data.getD o2 0
                    if 0x3F < tokenLen then none
                    else if o2 + 1 + tokenLen > data.length then none
                    else
                      let token := (data.drop (o2 + 1)).take tokenLen
                      parseLongTail data ptype version destConnID srcConnID
                        token (o2 + 1 + tokenLen)
                else
                  parseLongTail data ptype version destConnID srcConnID [] o2
    else
      if 1 + 8 > data.length then none
      else
        let destConnID := (data.drop 1).take 8
        if 9 + 4 > data.length then none
        else
          let pn := be32 (data.getD 9 0) (data.getD 10 0) (data.getD 11 0)
            (data.getD 12 0)
          some ({ ptype := .ONE_RTT, version := 0, destConnID := destConnID,
                  srcConnID := [], token := [], length := data.length - 13,
                  packetNumber := pn }, data.drop 13)

/-! ## QUICHandler::sendPacket, software path (quic_handler.cpp:474-636)

Acceleration disabled, so the FPGA framing branch is skipped.  The source
writes into a pre-sized buffer and resizes it to the final offset; the net
content is the concatenation below.  CID length bytes are single uint8_t
stores (`packetData[offset++] = m_destConnID.size()`), hence mod 256. -/

/-- The 4 big-endian bytes of a packet number (quic_handler.cpp:574-578,
the source value is a uint32_t). -/
def pn32be (n : Nat) : List Nat :=
  [n / 2 ^ 24 % 256, n / 2 ^ 16 % 256, n / 2 ^ 8 % 256, n % 256]

/-- The serialized datagram produced by the software framing path of
QUICHandler::sendPacket for the given type, or `none` for the unsupported
types of the leading switch (quic_handler.cpp:518-538). -/
def buildPacketData (c : Conn) (ptype : QUICPacketType) (payload : List Nat) :
    Option (List Nat) :=
  match ptype with
  | .INITIAL => some (longHeaderPacket c 0xC3 true payload)
  | .HANDSHAKE => some (longHeaderPacket c 0xE3 false payload)
  | .ZERO_RTT => some (longHeaderPacket c 0xD3 false payload)
  | .ONE_RTT =>
      some ([0x40] ++ c.destConnID ++ pn32be c.nextPacketNumber ++ payload)
  | _ => none
where
  /-- Long-header serialization (quic_handler.cpp:540-590): first byte,
  version 1, DCID and SCID with 1-byte lengths, a zero token length for
  Initial, a 2-byte payload length covering packet number plus payload,
  the 4-byte packet number, then the payload. -/
  longHeaderPacket (c : Conn) (firstByte : Nat) (isInitial : Bool)
      (payload : List Nat) : List Nat :=
    let payloadLength := 4 + payload.length
    [firstByte] ++ [0, 0, 0, 1] ++
      [c.destConnID.length % 256] ++ c.destConnID ++
      [c.srcConnID.length % 256] ++ c.srcConnID ++
      (if isInitial then [0] else []) ++
      [payloadLength / 256 % 256, payloadLength % 256] ++
      pn32be c.nextPacketNumber ++ payload

/-- QUICHandler::sendPacket, software path: frame the packet, send it
(collected in the output list), update the statistics, append a PacketInfo
to m_sentPackets, and increment m_nextPacketNumber (a uint32_t, so modulo
2^32).  The unsupported-type switch arm returns false without sending. -/
def sendPacket (c : Conn) (ptype : QUICPacketType) (payload : List Nat)
    (now : Nat) : Bool × Conn × List (List Nat) :=
  match buildPacketData c ptype payload with
  | none => (false, c, [])
  | some pkt =>
      (true,
       { c with
          bytesSent := c.bytesSent + pkt.length
          packetsSent := c.packetsSent + 1
          sentPackets := c.sentPackets ++
            [{ packetNumber := c.nextPacketNumber, sentTime := now,
               acknowledged := false, packetData := pkt }]
          nextPacketNumber := (c.nextPacketNumber + 1) % 2 ^ 32 },
       [pkt])

/-! ## QUICHandler::processFrames (quic_handler.cpp:394-472) -/

/-- ACK-frame handling (quic_handler.cpp:421-432): mark the first tracker
entry whose packet number equals the acknowledged number (the loop breaks
after the first match). -/
def markAcked (n : Nat) : List PacketInfo → List PacketInfo
  | [] => []
  | p :: rest =>
      if p.packetNumber = n then { p with acknowledged := true } :: rest
      else p :: markAcked n rest

/-- The ACK branch of processFrames applied to the bytes that follow the
frame-type byte: the 4-byte acknowledged packet number is read only when
at least 4 bytes remain (`offset + 4 <= payload.size()`), otherwise the
tracker is untouched. -/
def processAckBranch (tracker : List PacketInfo) (rest : List Nat) :
    List PacketInfo :=
  match rest with
  | b3 :: b2 :: b1 :: b0 :: _ => markAcked (be32 b3 b2 b1 b0) tracker
  | _ => tracker

/-- The frame loop of QUICHandler::processFrames over the remaining
suffix of the payload.  PADDING and PING advance one byte; ACK/ACK-ECN
update the tracker and set `offset = payload.size()` (ending the loop);
CRYPTO and unknown types skip to the end; a STREAM type (0x08-0x0F) echoes
the ENTIRE payload back via sendPacket and returns its result. -/
def processFramesAux (c : Conn) (payload : List Nat) (now : Nat) :
    List Nat → Bool × Conn × List (List Nat)
  | [] => (true, c, [])
  | ft :: rest =>
    if ft = 0x00 ∨ ft = 0x01 then processFramesAux c payload now rest
    else if ft = 0x02 ∨ ft = 0x03 then
      (true, { c with sentPackets := processAckBranch c.sentPackets rest }, [])
    else if ft = 0x06 then (true, c, [])
    else if 0x08 ≤ ft ∧ ft ≤ 0x0F then
      sendPacket c .ONE_RTT payload now
    else (true, c, [])

/-- QUICHandler::processFrames (software path). -/
def processFrames (c : Conn) (payload : List Nat) (now : Nat) :
    Bool × Conn × List (List Nat) :=
  processFramesAux c payload now payload

/-! ## QUICHandler::sendAckPacket, software path (quic_handler.cpp:638-691) -/

/-- The simplified 10-byte ACK frame (quic_handler.cpp:648-665). -/
def buildAckFrame (largestAcked : Nat) : List Nat :=
  [0x02] ++ pn32be largestAcked ++ [0x00, 0x00, 0x00, 0x00]

/-- QUICHandler::sendAckPacket, software path: nothing to do for an empty
list, otherwise acknowledge the largest received packet number
(`std::max_element`, here a fold of Nat.max) in a 1-RTT packet. -/
def sendAckPacket (c : Conn) (packetNumbers : List Nat) (now : Nat) :
    Bool × Conn × List (List Nat) :=
  match packetNumbers with
  | [] => (true, c, [])
  | _ =>
      sendPacket c .ONE_RTT (buildAckFrame (packetNumbers.foldl Nat.max 0)) now

/-! ## Packet-type handlers, software path (quic_handler.cpp:273-392) -/

/-- The fixed CRYPTO response payload of handleInitialPacket
(quic_handler.cpp:288-295). -/
def respInitialPayload : List Nat :=
  [0x06, 0x00, 0x10,
   0x01, 0x02, 0x03, 0x04, 0x05, 0x06, 0x07, 0x08,
   0x09, 0x0A, 0x0B, 0x0C, 0x0D, 0x0E, 0x0F, 0x10]

/-- The fixed CRYPTO response payload of handleHandshakePacket
(quic_handler.cpp:350-357). -/
def respHandshakePayload : List Nat :=
  [0x06, 0x00, 0x10,
   0x11, 0x12, 0x13, 0x14, 0x15, 0x16, 0x17, 0x18,
   0x19, 0x1A, 0x1B, 0x1C, 0x1D, 0x1E, 0x1F, 0x20]

/-- QUICHandler::handleInitialPacket, software path: record the received
packet number, respond with an Initial packet. -/
def handleInitialPacket (c : Conn) (h : QUICPacketHeader) (now : Nat) :
    Bool × Conn × List (List Nat) :=
  let c := { c with receivedPackets := c.receivedPackets ++ [h.packetNumber] }
  sendPacket c .INITIAL respInitialPayload now

/-- QUICHandler::handleHandshakePacket, software path: record the received
packet number, send a Handshake response then a 1-RTT HANDSHAKE_DONE. -/
def handleHandshakePacket (c : Conn) (h : QUICPacketHeader) (now : Nat) :
    Bool × Conn × List (List Nat) :=
  let c := { c with receivedPackets := c.receivedPackets ++ [h.packetNumber] }
  let r1 := sendPacket c .HANDSHAKE respHandshakePayload now
  let r2 := sendPacket r1.2.1 .ONE_RTT [0x1E] now
  (r1.1 && r2.1, r2.2.1, r1.2.2 ++ r2.2.2)

/-- QUICHandler::handleOneRttPacket: record the received packet number,
process the frames, then acknowledge all received packets. -/
def handleOneRttPacket (c : Conn) (h : QUICPacketHeader)
    (payload : List Nat) (now : Nat) : Bool × Conn × List (List Nat) :=
  let c := { c with receivedPackets := c.receivedPackets ++ [h.packetNumber] }
  let r := processFrames c payload now
  if r.1 = false then (false, r.2.1, r.2.2)
  else
    let ra := sendAckPacket r.2.1 r.2.1.receivedPackets now
    (ra.1, ra.2.1, r.2.2 ++ ra.2.2)

/-! ## QUICHandler::checkForRetransmissions, software path
(quic_handler.cpp:697-767)

Phase one snapshots every unacknowledged packet older than
RETRANSMIT_TIMEOUT_MS (500 ms, strict comparison); phase two resends each
snapshot's bytes, bumps the statistics and rewrites `sentTime` of the
first tracker entry with the matching packet number.  Nothing is ever
removed and no retry counter exists. -/

/-- The selection predicate of the scan (quic_handler.cpp:704-712). -/
def retxDue (now : Nat) (p : PacketInfo) : Bool :=
  !p.acknowledged && decide (500 < now - p.sentTime)

/-- The packets snapshotted for retransmission, in tracker order. -/
def retransmitCandidates (c : Conn) (now : Nat) : List PacketInfo :=
  c.sentPackets.filter (retxDue now)

/-- Rewrite `sentTime` of the first entry with the given packet number
(quic_handler.cpp:758-765; the loop breaks after the first match). -/
def updateSentTime (n now : Nat) : List PacketInfo → List PacketInfo
  | [] => []
  | p :: rest =>
      if p.packetNumber = n then { p with sentTime := now } :: rest
      else p :: updateSentTime n now rest

/-- QUICHandler::checkForRetransmissions, software path. -/
def checkForRetransmissions (c : Conn) (now : Nat) :
    Conn × List (List Nat) :=
  let cands := retransmitCandidates c now
  ({ c with
      sentPackets :=
        cands.foldl (fun tr p => updateSentTime p.packetNumber now tr)
          c.sentPackets
      bytesSent := c.bytesSent + (cands.map (fun p => p.packetData.length)).sum
      packetsSent := c.packetsSent + cands.length },
   cands.map (fun p => p.packetData))

/-! ## QUICHandler::processIncomingPacket (quic_handler.cpp:60-125) -/

/-- QUICHandler::processIncomingPacket.  `data = none` models a null
pointer.  A null pointer or a zero length is rejected before any state is
touched; otherwise activity and receive statistics are updated, the packet
is parsed (`data` truncated to `length` bytes, matching the pointer/length
pair), the destination CID is latched on the first packet, the packet is
dispatched by type (0-RTT, Retry and Version Negotiation are unsupported
and yield false), and finally the retransmission scan runs. -/
def processIncomingPacket (c : Conn) (data : Option (List Nat))
    (length : Nat) (now : Nat) : Bool × Conn × List (List Nat) :=
  match data with
  | none => (false, c, [])
  | some bytes =>
    if length = 0 then (false, c, [])
    else
      let c := { c with lastActivity := now }
      let c := { c with bytesReceived := c.bytesReceived + length,
                        packetsReceived := c.packetsReceived + 1 }
      match parsePacket (bytes.take length) with
      | none => (false, c, [])
      | some (header, payload) =>
        let c := if c.destConnID = [] then
            { c with destConnID := header.destConnID } else c
        let r :=
          match header.ptype with
          | .INITIAL => handleInitialPacket c header now
          | .HANDSHAKE => handleHandshakePacket c header now
          | .ONE_RTT => handleOneRttPacket c header payload now
          | _ => (false, c, [])
        let rr := checkForRetransmissions r.2.1 now
        (r.1, rr.1, r.2.2 ++ rr.2)

/-! ## QUICHandler::isActive and QUICProxy::cleanupInactiveConnections
(quic_handler.cpp:127-133, quic_proxy.cpp:283-312) -/

/-- QUICHandler::isActive: connected and last activity younger than
IDLE_TIMEOUT_MS (30000 ms, strict comparison). -/
def isActive (c : Conn) (now : Nat) : Bool :=
  c.connected && decide (now - c.lastActivity < 30000)

/-- QUICProxy::cleanupInactiveConnections: a no-op unless at least 5
seconds (duration_cast to whole seconds) have elapsed since the previous
cleanup, otherwise every connection failing isActive is removed.  Returns
the remaining connections and the new last-cleanup time. -/
def cleanupInactiveConnections (conns : List Conn) (now lastCleanup : Nat) :
    List Conn × Nat :=
  if (now - lastCleanup) / 1000 < 5 then (conns, lastCleanup)
  else (conns.filter (fun h => isActive h now), now)

/-! ## FPGA header validation (quic_packet_processor.vhd, VALIDATE_HEADER,
lines 279-444)

The VALIDATE_HEADER state runs a sequence of checks over the loaded input
buffer within a single clock edge.  All writes to the `header_valid` and
`validation_error` signals are scheduled, so the LAST check that fails
determines the final error code, while the default assignments at the top
of the state make the packet valid when no check fails.  The two guards
that READ `header_valid` (the connection-ID comparisons at lines 369 and
423) observe the value the signal had BEFORE this clock edge; that stale
value is the explicit `oldValid` parameter.  The buffer is the byte list
`buf` with `in_buf_wrptr = buf.length`; `connId` is the 64-bit
`connection_id` port as 8 bytes, byte `i` holding bits 8i+7 downto 8i. -/

def VALID_HEADER : Nat := 0

def INVALID_PACKET_TYPE : Nat := 1

def INVALID_VERSION : Nat := 2

def INVALID_CID_LENGTH : Nat := 3

def INVALID_PACKET_SIZE : Nat := 4

def INVALID_FRAME_TYPE : Nat := 5

def INVALID_PKT_NUM_LEN : Nat := 6

def INVALID_CID_MATCH : Nat := 7

def INVALID_TOKEN : Nat := 8

/-- The 8-byte connection-ID comparison loops (lines 374-378 and 428-432):
buffer bytes `base .. base+7` against the 8 bytes of the port. -/
def cidMatchAt (buf : List Nat) (base : Nat) (connId : List Nat) : Bool :=
  (List.range 8).all (fun i => buf.getD (base + i) 0 == connId.getD i 0)

/-- The VALIDATE_HEADER state: returns the final scheduled values of
(header_valid, validation_error).  Long headers are recognized by bit 7 of
the first byte; the valid long type bytes are the nonstandard constants
0xFF/0xFE/0xFD/0xFC/0xFB of the architecture.  Each `let` rebinding models
a later signal assignment overwriting an earlier one. -/
def validateHeader (buf connId : List Nat) (oldValid : Bool) : Bool × Nat :=
  if buf.length = 0 then (false, INVALID_PACKET_SIZE)
  else
    let b0 := buf.getD 0 0
    if b0 / 128 % 2 = 1 then
      let s := (true, VALID_HEADER)
      let s := if b0 = 0xFF ∨ b0 = 0xFE ∨ b0 = 0xFD ∨ b0 = 0xFC ∨ b0 = 0xFB
        then s else (false, INVALID_PACKET_TYPE)
      let s := if buf.length < 7 then (false, INVALID_PACKET_SIZE) else s
      let s := if 5 ≤ buf.length then
          (if buf.getD 1 0 = 0x00 ∧ buf.getD 2 0 = 0x00 ∧
              buf.getD 3 0 = 0x00 ∧ buf.getD 4 0 = 0x01
           then s else (false, INVALID_VERSION))
        else s
      if 6 ≤ buf.length then
        let dcidLen := buf.getD 5 0
        let s := if 20 < dcidLen then (false, INVALID_CID_LENGTH) else s
        let s := if 6 + dcidLen ≤ buf.length then
            let scidLenIndex := 6 + dcidLen
            let s := if 20 < buf.getD scidLenIndex 0
              then (false, INVALID_CID_LENGTH) else s
            if b0 = 0xFF then
              let tokenLenIndex := scidLenIndex + 1 + buf.getD scidLenIndex 0
              if buf.length < tokenLenIndex then (false, INVALID_TOKEN) else s
            else s
          else s
        if oldValid ∧ dcidLen = 8 then
          if cidMatchAt buf 6 connId then s else (false, INVALID_CID_MATCH)
        else s
      else s
    else
      let s := (true, VALID_HEADER)
      let s := if buf.length < 10 then (false, INVALID_PACKET_SIZE) else s
      let s := if b0 % 32 ≠ 0 then (false, INVALID_PACKET_TYPE) else s
      let pktNumLen := b0 / 32 % 4 + 1
      let s := if buf.length < 1 + 8 + pktNumLen
        then (false, INVALID_PKT_NUM_LEN) else s
      if oldValid then
        if cidMatchAt buf 1 connId then s else (false, INVALID_CID_MATCH)
      else s

/-! ## FPGA packet tracker, CHECK_RETRANSMIT (quic_packet_processor.vhd,
lines 830-855)

The tracked-packet record (lines 112-118) with its `retx_count` field.
CHECK_RETRANSMIT scans the tracker for the FIRST entry that is unacked,
has `retx_count < 10` and is older than the timeout (`exit` ends the loop
after one hit); that entry's timestamp is rewritten to `current_time` and
its retry counter incremented.  No entry is ever removed. -/

structure FpgaPacketRec where
  packet_num : Nat
  size : Nat
  timestamp : Nat
  acked : Bool
  retx_count : Nat
deriving DecidableEq, Repr

/-- 32-bit wrap-around subtraction of the `unsigned(current_time) -
unsigned(timestamp)` age computation (line 837). -/
def sub32 (a b : Nat) : Nat :=
  (a % 2 ^ 32 + 2 ^ 32 - b % 2 ^ 32) % 2 ^ 32

/-- The eligibility test of line 835-837. -/
def retxEligible (now timeout : Nat) (p : FpgaPacketRec) : Bool :=
  !p.acked && decide (p.retx_count < 10) && decide (timeout < sub32 now p.timestamp)

/-- One pass of the CHECK_RETRANSMIT loop: update the first eligible
entry (timestamp := now, retx_count + 1) and report its packet number, or
leave the tracker unchanged when no entry is eligible. -/
def checkRetransmitStep (now timeout : Nat) :
    List FpgaPacketRec → List FpgaPacketRec × Option Nat
  | [] => ([], none)
  | p :: rest =>
    if retxEligible now timeout p then
      ({ p with timestamp := now, retx_count := p.retx_count + 1 } :: rest,
       some p.packet_num)
    else
      let r := checkRetransmitStep now timeout rest
      (p :: r.1, r.2)

/-! ## FPGA stream table, PROCESS_STREAM_FRAME (quic_packet_processor.vhd,
lines 684-808)

The per-stream record (lines 162-171) and the stream-table update of the
PROCESS_STREAM_FRAME state.  `streams` models the first `stream_count`
entries of the 64-element array.  Offsets are 64-bit unsigned values. -/

inductive FpgaStreamState where
  | STREAM_IDLE
  | STREAM_OPEN
  | STREAM_CLOSED
  | STREAM_RESET
deriving DecidableEq, Repr

structure FpgaStreamRec where
  stream_id : Nat
  state : FpgaStreamState
  recv_offset : Nat
  send_offset : Nat
  is_bidi : Bool
  last_activity : Nat
  fin_received : Bool
  fin_sent : Bool
deriving DecidableEq, Repr

/-- The found-stream update (lines 757-782): raise `recv_offset` to
offset+length when larger (64-bit addition), stamp the activity time, and
on FIN set `fin_received` and close an open stream.  The search loop exits
at the first matching stream id. -/
def updateExistingStream (sid off dataLen now : Nat) (fin : Bool) :
    List FpgaStreamRec → List FpgaStreamRec
  | [] => []
  | s :: rest =>
    if s.stream_id = sid then
      let newEnd := (off + dataLen) % 2 ^ 64
      let s1 := { s with
        recv_offset :=
          (if s.recv_offset < newEnd then newEnd else s.recv_offset),
        last_activity := now }
      (if fin then
        { s1 with
          fin_received := true,
          state :=
            (if s1.state = .STREAM_OPEN then .STREAM_CLOSED else s1.state) }
       else s1) :: rest
    else s :: updateExistingStream sid off dataLen now fin rest

/-- The stream-table effect of PROCESS_STREAM_FRAME for a frame carrying
stream id `sid`, offset `off`, `dataLen` data bytes and FIN flag `fin`:
update an existing stream, else create one only when `stream_count <
MAX_STREAMS` (lines 784-800); with a full table and an unknown id the
table is left untouched. -/
def processStreamFrame (streams : List FpgaStreamRec)
    (sid off dataLen now : Nat) (fin : Bool) : List FpgaStreamRec :=
  if streams.any (fun s => s.stream_id == sid) then
    updateExistingStream sid off dataLen now fin streams
  else if streams.length < 64 then
    streams ++
      [{ stream_id := sid
         state := if fin then .STREAM_CLOSED else .STREAM_OPEN
         recv_offset := (off + dataLen) % 2 ^ 64
         send_offset := 0
         is_bidi := true
         last_activity := now
         fin_received := fin
         fin_sent := false }]
  else streams

/-! ## Traces used by the theorems -/

/-- One outbound send request: the arguments of a QUICHandler::sendPacket
call together with the send time. -/
structure SendReq where
  ptype : QUICPacketType
  payload : List Nat
  now : Nat
deriving DecidableEq, Repr

/-- Iterated sendPacket over a list of requests, threading the connection
state. -/
def sendMany (c : Conn) : List SendReq → Conn
  | [] => c
  | r :: rs => sendMany (sendPacket c r.ptype r.payload r.now).2.1 rs

/-- The packet numbers recorded in the sent-packet tracker, in the order
the entries were appended. -/
def recordedPns (c : Conn) : List Nat :=
  c.sentPackets.map (fun p => p.packetNumber)

/-- Whether sendPacket's leading switch accepts the packet type
(quic_handler.cpp:518-538; Retry and Version Negotiation fall into the
default arm and are rejected). -/
def supportedSend : QUICPacketType → Bool
  | .RETRY => false
  | .VERSION_NEGOTIATION => false
  | _ => true

/-- Number of requests in a trace that sendPacket actually frames. -/
def countSupported (rs : List SendReq) : Nat :=
  (rs.filter (fun r => supportedSend r.ptype)).length

/-- A trace of 2^32 + 1 one-RTT sends, one more than the uint32_t packet
number space. -/
def manyReqs : List SendReq :=
  List.replicate (2 ^ 32 + 1) { ptype := .ONE_RTT, payload := [], now := 0 }

/-- Iterated retransmission scans at the given times, counting the total
number of datagrams retransmitted. -/
def retxLoop (c : Conn) : List Nat → Conn × Nat
  | [] => (c, 0)
  | t :: ts =>
    let r := checkForRetransmissions c t
    let rr := retxLoop r.1 ts
    (rr.1, r.2.length + rr.2)

/-- A handler holding a single unacknowledged sent packet (number 5, sent
at time 0). -/
def c2start : Conn :=
  { connZero with
    sentPackets := [{ packetNumber := 5, sentTime := 0,
                      acknowledged := false, packetData := [1, 2, 3] }] }

/-- Eleven scan times, 600 ms apart, so that the packet of `c2start` has
timed out before every scan. -/
def c2times : List Nat := (List.range 11).map (fun k => 600 * (k + 1))

/-- A 33-byte long-header Handshake datagram whose DCID-length byte is 21,
one more than the protocol maximum of 20: first byte 0xE3, version 1, DCID
length 21, 21 DCID bytes, SCID length 0, payload length 0, packet number
7. -/
def c4datagram : List Nat :=
  [0xE3, 0x00, 0x00, 0x00, 0x01, 21] ++
    (List.range 21).map (fun i => i + 1) ++ [0, 0, 0, 0, 0, 7]

/-- A 13-byte short-header datagram whose first byte 0x70 has non-zero
reserved bits (bits 4-0 = 0x10): 8 DCID bytes then a 4-byte packet
number. -/
def c5datagram : List Nat :=
  [0x70, 1, 2, 3, 4, 5, 6, 7, 8, 0, 0, 0, 1]

/-! ## Theorems -/

/-- C10. processIncomingPacket called with a null data pointer or a zero
length returns false and leaves the connection state untouched: no
counters, no activity timestamp, and no datagram is sent
(quic_handler.cpp:60-63, the guard precedes every state update). -/
theorem C10_null_or_empty_no_effect (c : Conn) (data : Option (List Nat))
    (length now : Nat) (h : data = none ∨ length = 0) :
    processIncomingPacket c data length now = (false, c, []) := by
  rcases h with h | h
  · rw [h]; rfl
  · cases data with
    | none => rfl
    | some bytes => simp [processIncomingPacket, h]

/-- Witness for C10 at a concrete input: a null pointer with a claimed
length of 5 bytes. -/
theorem C10_witness :
    ((none : Option (List Nat)) = none ∨ (5 : Nat) = 0) ∧
    processIncomingPacket connZero none 5 0 = (false, connZero, []) :=
  ⟨Or.inl rfl, C10_null_or_empty_no_effect connZero none 5 0 (Or.inl rfl)⟩

/-- Marking the same tracker entry acknowledged twice equals marking it
once. -/
theorem markAcked_idem (n : Nat) (l : List PacketInfo) :
    markAcked n (markAcked n l) = markAcked n l := by
  induction l with
  | nil => rfl
  | cons p rest ih =>
    by_cases h : p.packetNumber = n
    · simp [markAcked, h]
    · simp [markAcked, h, ih]

/-- C6. Applying the same ACK frame twice leaves the sent-packet tracker
in the same state as applying it once: the ACK branch of
QUICHandler::processFrames only sets the acknowledged flag of the first
entry matching the acknowledged packet number, which is idempotent. -/
theorem C6_ack_idempotent (tracker : List PacketInfo) (rest : List Nat) :
    processAckBranch (processAckBranch tracker rest) rest =
      processAckBranch tracker rest := by
  rcases rest with _ | ⟨b3, _ | ⟨b2, _ | ⟨b1, _ | ⟨b0, tail⟩⟩⟩⟩ <;>
    simp [processAckBranch, markAcked_idem]

/-- C8. A connection idle for strictly more than 30 s (in milliseconds of
steady-clock time) is removed by the next cleanup pass that actually runs
(at least 5 s after the previous pass): isActive is false for it, so the
remove_if filter drops it. -/
theorem C8_idle_connection_reaped (conns : List Conn) (now lastCleanup : Nat)
    (c : Conn) (hrun : 5 ≤ (now - lastCleanup) / 1000)
    (hidle : 30000 < now - c.lastActivity) :
    c ∉ (cleanupInactiveConnections conns now lastCleanup).1 := by
  unfold cleanupInactiveConnections
  rw [if_neg (by omega)]
  intro hmem
  have hact := (List.mem_filter.mp hmem).2
  simp only [isActive, Bool.and_eq_true, decide_eq_true_eq] at hact
  omega

/-- Witness for C8: a connection last active at time 0 is gone after the
cleanup pass at time 40000 ms. -/
theorem C8_witness :
    5 ≤ ((40000 : Nat) - 0) / 1000 ∧ (30000 : Nat) < 40000 - connZero.lastActivity ∧
    connZero ∉ (cleanupInactiveConnections [connZero] 40000 0).1 :=
  ⟨by decide, by decide,
   C8_idle_connection_reaped [connZero] 40000 0 connZero (by decide) (by decide)⟩

/-- C9. The retransmission scan preserves the tracker order (the selected
packets form a sublist of m_sentPackets), so when the tracked packet
numbers are strictly increasing the packets selected in one pass are
retransmitted in strictly increasing packet-number order. -/
theorem C9_retransmit_order (c : Conn) (now : Nat)
    (h : c.sentPackets.Pairwise (fun p q => p.packetNumber < q.packetNumber)) :
    (retransmitCandidates c now).Sublist c.sentPackets ∧
    (retransmitCandidates c now).Pairwise
      (fun p q => p.packetNumber < q.packetNumber) := by
  exact ⟨List.filter_sublist _, h.sublist (List.filter_sublist _)⟩

/-- Witness for C9: two timed-out packets with numbers 1 and 2 are
selected in that order. -/
theorem C9_witness :
    ({ connZero with sentPackets :=
        [{ packetNumber := 1, sentTime := 0, acknowledged := false,
           packetData := [7] },
         { packetNumber := 2, sentTime := 0, acknowledged := false,
           packetData := [8] }] } : Conn).sentPackets.Pairwise
      (fun p q => p.packetNumber < q.packetNumber) ∧
    ((retransmitCandidates { connZero with sentPackets :=
        [{ packetNumber := 1, sentTime := 0, acknowledged := false,
           packetData := [7] },
         { packetNumber := 2, sentTime := 0, acknowledged := false,
           packetData := [8] }] } 1000).Sublist
      ({ connZero with sentPackets :=
        [{ packetNumber := 1, sentTime := 0, acknowledged := false,
           packetData := [7] },
         { packetNumber := 2, sentTime := 0, acknowledged := false,
           packetData := [8] }] } : Conn).sentPackets ∧
     (retransmitCandidates { connZero with sentPackets :=
        [{ packetNumber := 1, sentTime := 0, acknowledged := false,
           packetData := [7] },
         { packetNumber := 2, sentTime := 0, acknowledged := false,
           packetData := [8] }] } 1000).Pairwise
      (fun p q => p.packetNumber < q.packetNumber)) :=
  ⟨by decide, C9_retransmit_order _ 1000 (by decide)⟩

/-- The in-place stream update never changes the number of tracked
streams. -/
theorem updateExistingStream_length (sid off dataLen now : Nat) (fin : Bool)
    (l : List FpgaStreamRec) :
    (updateExistingStream sid off dataLen now fin l).length = l.length := by
  induction l with
  | nil => rfl
  | cons s rest ih =>
    by_cases h : s.stream_id = sid <;>
      simp [updateExistingStream, h, ih]

/-- C7. The FPGA stream table never tracks more than MAX_STREAMS = 64
streams: a frame for an existing stream updates it in place, a frame for
a new stream is admitted only while the count is below 64, and a frame
that would create a 65th stream leaves the table exactly unchanged. -/
theorem C7_stream_capacity (streams : List FpgaStreamRec)
    (sid off dataLen now : Nat) (fin : Bool) (h : streams.length ≤ 64) :
    (processStreamFrame streams sid off dataLen now fin).length ≤ 64 ∧
    (streams.length = 64 →
      streams.all (fun s => s.stream_id != sid) = true →
      processStreamFrame streams sid off dataLen now fin = streams) := by
  constructor
  · unfold processStreamFrame
    split_ifs with h1 h2
    all_goals first
      | (rw [updateExistingStream_length]; exact h)
      | (simp only [List.length_append, List.length_cons, List.length_nil]
         omega)
      | exact h
  · intro h64 habs
    have hany : ¬ (streams.any fun s => s.stream_id == sid) = true := by
      intro hx
      simp only [List.any_eq_true, beq_iff_eq] at hx
      simp only [List.all_eq_true, bne_iff_ne, ne_eq] at habs
      obtain ⟨s, hs, he⟩ := hx
      exact habs s hs he
    unfold processStreamFrame
    rw [if_neg hany, if_neg (by omega)]

/-- Witness for C7: a table holding 64 streams (ids 100..163) is left
unchanged by a frame for the fresh stream id 7. -/
theorem C7_witness :
    ((List.range 64).map (fun i =>
      ({ stream_id := 100 + i, state := .STREAM_OPEN, recv_offset := 0,
         send_offset := 0, is_bidi := true, last_activity := 0,
         fin_received := false, fin_sent := false } : FpgaStreamRec))).length ≤ 64 ∧
    ((processStreamFrame ((List.range 64).map (fun i =>
      ({ stream_id := 100 + i, state := .STREAM_OPEN, recv_offset := 0,
         send_offset := 0, is_bidi := true, last_activity := 0,
         fin_received := false, fin_sent := false } : FpgaStreamRec)))
        7 0 4 0 false).length ≤ 64 ∧
     (((List.range 64).map (fun i =>
      ({ stream_id := 100 + i, state := .STREAM_OPEN, recv_offset := 0,
         send_offset := 0, is_bidi := true, last_activity := 0,
         fin_received := false, fin_sent := false } : FpgaStreamRec))).length = 64 →
      ((List.range 64).map (fun i =>
      ({ stream_id := 100 + i, state := .STREAM_OPEN, recv_offset := 0,
         send_offset := 0, is_bidi := true, last_activity := 0,
         fin_received := false, fin_sent := false } : FpgaStreamRec))).all
        (fun s => s.stream_id != 7) = true →
      processStreamFrame ((List.range 64).map (fun i =>
      ({ stream_id := 100 + i, state := .STREAM_OPEN, recv_offset := 0,
         send_offset := 0, is_bidi := true, last_activity := 0,
         fin_received := false, fin_sent := false } : FpgaStreamRec)))
        7 0 4 0 false =
      (List.range 64).map (fun i =>
      ({ stream_id := 100 + i, state := .STREAM_OPEN, recv_offset := 0,
         send_offset := 0, is_bidi := true, last_activity := 0,
         fin_received := false, fin_sent := false } : FpgaStreamRec)))) :=
  ⟨by decide, C7_stream_capacity _ 7 0 4 0 false (by decide)⟩

/-- C2, counterexample.  In the software handler a timed-out packet is
retransmitted without any cap and is never abandoned: starting from one
unacknowledged packet, eleven retransmission scans 600 ms apart resend it
eleven times and the packet is still tracked afterwards.  The claimed cap
of 10 retransmissions followed by removal does not exist in
quic_handler.cpp (PacketInfo has no retry counter). -/
theorem C2_counterexample :
    (retxLoop c2start c2times).2 = 11 ∧
    ((retxLoop c2start c2times).1.sentPackets.map
      (fun p => p.packetNumber)) = [5] := by
  exact ⟨by decide, by decide⟩

/-- C2, amended.  In the FPGA packet tracker the retry counter never
exceeds 10 (CHECK_RETRANSMIT selects only entries with retx_count < 10),
but a packet that reaches 10 retries is NOT abandoned: the scan never
removes entries, and an entry with retx_count = 10 survives the pass
unchanged. -/
theorem C2_fpga_retry_capped (tracker : List FpgaPacketRec) (now timeout : Nat)
    (h : ∀ p ∈ tracker, p.retx_count ≤ 10) :
    (∀ p ∈ (checkRetransmitStep now timeout tracker).1, p.retx_count ≤ 10) ∧
    ((checkRetransmitStep now timeout tracker).1).length = tracker.length ∧
    (∀ p ∈ tracker, p.retx_count = 10 →
      p ∈ (checkRetransmitStep now timeout tracker).1) := by
  induction tracker with
  | nil => simp [checkRetransmitStep]
  | cons p rest ih =>
    obtain ⟨ih1, ih2, ih3⟩ := ih (fun q hq => h q (List.mem_cons_of_mem _ hq))
    by_cases he : retxEligible now timeout p = true
    · have hstep : checkRetransmitStep now timeout (p :: rest) =
          ({ p with timestamp := now, retx_count := p.retx_count + 1 } :: rest,
           some p.packet_num) := by
        simp [checkRetransmitStep, he]
      have hlt : p.retx_count < 10 := by
        simp only [retxEligible, Bool.and_eq_true, decide_eq_true_eq] at he
        exact he.1.2
      rw [hstep]
      refine ⟨?_, by simp, ?_⟩
      · intro q hq
        rcases List.mem_cons.mp hq with hq | hq
        · rw [hq]; exact hlt
        · exact h q (List.mem_cons_of_mem _ hq)
      · intro q hq h10
        rcases List.mem_cons.mp hq with hq | hq
        · exfalso; rw [hq] at h10; omega
        · exact List.mem_cons_of_mem _ hq
    · have hstep : checkRetransmitStep now timeout (p :: rest) =
          (p :: (checkRetransmitStep now timeout rest).1,
           (checkRetransmitStep now timeout rest).2) := by
        simp [checkRetransmitStep, he]
      rw [hstep]
      refine ⟨?_, by simp [ih2], ?_⟩
      · intro q hq
        rcases List.mem_cons.mp hq with hq | hq
        · rw [hq]; exact h p (List.mem_cons_self _ _)
        · exact ih1 q hq
      · intro q hq h10
        rcases List.mem_cons.mp hq with hq | hq
        · rw [hq]; exact List.mem_cons_self _ _
        · exact List.mem_cons_of_mem _ (ih3 q hq h10)

/-- Witness for C2's amended theorem: a tracker with an entry at the cap
(retx_count = 10) and one below it. -/
theorem C2_witness :
    (∀ p ∈ [({ packet_num := 1, size := 3, timestamp := 0, acked := false,
               retx_count := 10 } : FpgaPacketRec),
             { packet_num := 2, size := 3, timestamp := 0, acked := false,
               retx_count := 3 }], p.retx_count ≤ 10) ∧
    ((∀ p ∈ (checkRetransmitStep 1000 500
        [({ packet_num := 1, size := 3, timestamp := 0, acked := false,
            retx_count := 10 } : FpgaPacketRec),
         { packet_num := 2, size := 3, timestamp := 0, acked := false,
           retx_count := 3 }]).1, p.retx_count ≤ 10) ∧
     ((checkRetransmitStep 1000 500
        [({ packet_num := 1, size := 3, timestamp := 0, acked := false,
            retx_count := 10 } : FpgaPacketRec),
         { packet_num := 2, size := 3, timestamp := 0, acked := false,
           retx_count := 3 }]).1).length =
       ([({ packet_num := 1, size := 3, timestamp := 0, acked := false,
            retx_count := 10 } : FpgaPacketRec),
         { packet_num := 2, size := 3, timestamp := 0, acked := false,
           retx_count := 3 }] : List FpgaPacketRec).length ∧
     (∀ p ∈ [({ packet_num := 1, size := 3, timestamp := 0, acked := false,
                retx_count := 10 } : FpgaPacketRec),
              { packet_num := 2, size := 3, timestamp := 0, acked := false,
                retx_count := 3 }], p.retx_count = 10 →
        p ∈ (checkRetransmitStep 1000 500
          [({ packet_num := 1, size := 3, timestamp := 0, acked := false,
              retx_count := 10 } : FpgaPacketRec),
           { packet_num := 2, size := 3, timestamp := 0, acked := false,
             retx_count := 3 }]).1)) :=
  ⟨by decide, C2_fpga_retry_capped _ 1000 500 (by decide)⟩

/-- C4, counterexample.  The software parser accepts a long-header
datagram whose DCID length field is 21 (> 20): parsing succeeds and
returns the oversized 21-byte connection ID instead of failing with
InvalidCidLength.  quic_handler.cpp:184-199 contains no length check. -/
theorem C4_counterexample :
    (parsePacket c4datagram).map
      (fun r => (r.1.ptype, r.1.destConnID.length)) =
      some (QUICPacketType.HANDSHAKE, 21) := by
  decide

/-- C5, counterexample.  The software parser accepts a short-header
datagram with first byte 0x70 (reserved bits non-zero): it is parsed as a
1-RTT packet and processed, not dropped.  quic_handler.cpp:241-261 never
inspects the reserved bits. -/
theorem C5_counterexample :
    (parsePacket c5datagram).map (fun r => r.1.ptype) =
      some QUICPacketType.ONE_RTT := by
  decide

/-- C4, amended.  Only the FPGA validator enforces the 20-byte CID bound:
a long-header buffer whose DCID length byte exceeds 20 is flagged invalid
with INVALID_CID_LENGTH.  The exclusion hypothesis rules out the one later
check that can overwrite the error code, the Initial-packet token check
(which still leaves the header invalid, with INVALID_TOKEN). -/
theorem C4_fpga_rejects_oversized_cid (buf connId : List Nat)
    (oldValid : Bool)
    (hlong : buf.getD 0 0 / 128 % 2 = 1)
    (hlen : 6 ≤ buf.length)
    (hdcid : 20 < buf.getD 5 0)
    (htok : ¬(buf.getD 0 0 = 0xFF ∧ 6 + buf.getD 5 0 ≤ buf.length ∧
        buf.length < 6 + buf.getD 5 0 + 1 + buf.getD (6 + buf.getD 5 0) 0)) :
    validateHeader buf connId oldValid = (false, INVALID_CID_LENGTH) := by
  simp only [validateHeader]
  rw [if_neg (show ¬ buf.length = 0 by omega), if_pos hlong, if_pos hlen,
    if_pos hdcid,
    if_neg (show ¬(oldValid = true ∧ buf.getD 5 0 = 8) by
      rintro ⟨-, h8⟩; omega)]
  by_cases hsc : 6 + buf.getD 5 0 ≤ buf.length
  · rw [if_pos hsc]
    by_cases hff : buf.getD 0 0 = 255
    · rw [if_pos hff,
        if_neg (show ¬ buf.length <
            6 + buf.getD 5 0 + 1 + buf.getD (6 + buf.getD 5 0) 0 from
          fun hlt => htok ⟨hff, hsc, hlt⟩)]
      split_ifs <;> rfl
    · rw [if_neg hff]
      split_ifs <;> rfl
  · rw [if_neg hsc]

/-- Witness for C4's amended theorem: a 6-byte long-header prefix with
first byte 0xE3 and DCID length byte 21. -/
theorem C4_witness :
    ([0xE3, 0, 0, 0, 1, 21] : List Nat).getD 0 0 / 128 % 2 = 1 ∧
    6 ≤ ([0xE3, 0, 0, 0, 1, 21] : List Nat).length ∧
    20 < ([0xE3, 0, 0, 0, 1, 21] : List Nat).getD 5 0 ∧
    ¬(([0xE3, 0, 0, 0, 1, 21] : List Nat).getD 0 0 = 0xFF ∧
      6 + ([0xE3, 0, 0, 0, 1, 21] : List Nat).getD 5 0 ≤
        ([0xE3, 0, 0, 0, 1, 21] : List Nat).length ∧
      ([0xE3, 0, 0, 0, 1, 21] : List Nat).length <
        6 + ([0xE3, 0, 0, 0, 1, 21] : List Nat).getD 5 0 + 1 +
          ([0xE3, 0, 0, 0, 1, 21] : List Nat).getD
            (6 + ([0xE3, 0, 0, 0, 1, 21] : List Nat).getD 5 0) 0) ∧
    validateHeader [0xE3, 0, 0, 0, 1, 21] [] false =
      (false, INVALID_CID_LENGTH) :=
  ⟨by decide, by decide, by decide, by decide,
   C4_fpga_rejects_oversized_cid [0xE3, 0, 0, 0, 1, 21] [] false
     (by decide) (by decide) (by decide) (by decide)⟩

/-- C5, amended.  A short-header datagram with non-zero reserved bits is
rejected only by the FPGA validator, which flags INVALID_PACKET_TYPE
(provided the buffer is long enough for the packet number and the stale
connection-ID guard passes); the software parser accepts the same bytes
and parses them as a 1-RTT packet.  Neither side keeps a per-kind error
counter. -/
theorem C5_reserved_bits_split (buf connId : List Nat) (oldValid : Bool)
    (hb : buf.getD 0 0 < 128)
    (hres : buf.getD 0 0 % 32 ≠ 0)
    (hlen : 13 ≤ buf.length)
    (hcid : oldValid = true → cidMatchAt buf 1 connId = true) :
    validateHeader buf connId oldValid = (false, INVALID_PACKET_TYPE) ∧
    (parsePacket buf).map (fun r => r.1.ptype) =
      some QUICPacketType.ONE_RTT := by
  constructor
  · have hd : buf.getD 0 0 / 128 = 0 := Nat.div_eq_of_lt hb
    have hpn : ¬ buf.length < 1 + 8 + (buf.getD 0 0 / 32 % 4 + 1) := by
      have h4 : buf.getD 0 0 / 32 % 4 < 4 := Nat.mod_lt _ (by norm_num)
      omega
    simp only [validateHeader]
    rw [if_neg (show ¬ buf.length = 0 by omega),
      if_neg (show ¬ buf.getD 0 0 / 128 % 2 = 1 by rw [hd]; decide),
      if_neg (show ¬ buf.length < 10 by omega), if_pos hres, if_neg hpn]
    cases oldValid with
    | false => rfl
    | true =>
      rw [if_pos rfl, if_pos (hcid rfl)]
  · simp only [parsePacket]
    rw [if_neg (show ¬ buf.length < 4 by omega),
      if_neg (show ¬ 128 ≤ buf.getD 0 0 by omega),
      if_neg (show ¬ 1 + 8 > buf.length by omega),
      if_neg (show ¬ 9 + 4 > buf.length by omega)]
    rfl

/-- Witness for C5's amended theorem: the 13-byte 0x70 datagram against a
matching 8-byte connection ID with a stale-valid flag. -/
theorem C5_witness :
    c5datagram.getD 0 0 < 128 ∧
    c5datagram.getD 0 0 % 32 ≠ 0 ∧
    13 ≤ c5datagram.length ∧
    ((true : Bool) = true →
      cidMatchAt c5datagram 1 [1, 2, 3, 4, 5, 6, 7, 8] = true) ∧
    (validateHeader c5datagram [1, 2, 3, 4, 5, 6, 7, 8] true =
      (false, INVALID_PACKET_TYPE) ∧
     (parsePacket c5datagram).map (fun r => r.1.ptype) =
       some QUICPacketType.ONE_RTT) :=
  ⟨by decide, by decide, by decide, fun _ => by decide,
   C5_reserved_bits_split c5datagram [1, 2, 3, 4, 5, 6, 7, 8] true
     (by decide) (by decide) (by decide) (fun _ => by decide)⟩

/-- The tracker and packet-number effect of one sendPacket call: a
supported type appends the current packet number and increments the
counter modulo 2^32; an unsupported type changes nothing. -/
theorem sendPacket_recordedPns (c : Conn) (t : QUICPacketType)
    (payload : List Nat) (now : Nat) :
    recordedPns (sendPacket c t payload now).2.1 =
      recordedPns c ++
        (if supportedSend t then [c.nextPacketNumber] else []) ∧
    (sendPacket c t payload now).2.1.nextPacketNumber =
      (if supportedSend t then (c.nextPacketNumber + 1) % 2 ^ 32
       else c.nextPacketNumber) := by
  cases t <;> simp [sendPacket, buildPacketData, supportedSend, recordedPns]

/-- An unsupported type leaves the whole connection state unchanged. -/
theorem sendPacket_unsupported (c : Conn) (t : QUICPacketType)
    (payload : List Nat) (now : Nat) (h : supportedSend t = false) :
    (sendPacket c t payload now).2.1 = c := by
  cases t <;> simp_all [sendPacket, buildPacketData, supportedSend]

/-- Unfolding the supported-send count over a cons. -/
theorem countSupported_cons (r : SendReq) (rs : List SendReq) :
    countSupported (r :: rs) =
      (if supportedSend r.ptype then 1 else 0) + countSupported rs := by
  by_cases h : supportedSend r.ptype = true
  · simp only [countSupported, List.filter_cons, h, if_pos,
      List.length_cons]
    omega
  · simp [countSupported, List.filter_cons, h]

/-- Supported-send count of a replicated request. -/
theorem countSupported_replicate (n : Nat) (r : SendReq) :
    countSupported (List.replicate n r) =
      if supportedSend r.ptype then n else 0 := by
  induction n with
  | zero => by_cases h : supportedSend r.ptype = true <;>
      simp [countSupported, h]
  | succ n ih =>
    rw [List.replicate_succ, countSupported_cons, ih]
    by_cases h : supportedSend r.ptype = true
    · simp only [h, if_pos]
      omega
    · simp [h]

/-- Closed form for a send trace: starting from a counter below 2^32, the
packet numbers recorded by `sendMany` are the consecutive values of the
counter reduced modulo 2^32, and the counter advances by the number of
framed sends. -/
theorem sendMany_recordedPns (rs : List SendReq) :
    ∀ c : Conn, c.nextPacketNumber < 2 ^ 32 →
      recordedPns (sendMany c rs) =
        recordedPns c ++ (List.range (countSupported rs)).map
          (fun i => (c.nextPacketNumber + i) % 2 ^ 32) ∧
      (sendMany c rs).nextPacketNumber =
        (c.nextPacketNumber + countSupported rs) % 2 ^ 32 := by
  induction rs with
  | nil =>
    intro c hc
    refine ⟨by simp [sendMany, countSupported], ?_⟩
    simp only [sendMany, countSupported, List.filter_nil, List.length_nil,
      Nat.add_zero]
    omega
  | cons r rs ih =>
    intro c hc
    obtain ⟨hp, hn⟩ := sendPacket_recordedPns c r.ptype r.payload r.now
    have hsm : sendMany c (r :: rs) =
        sendMany (sendPacket c r.ptype r.payload r.now).2.1 rs := rfl
    by_cases hsup : supportedSend r.ptype = true
    · simp only [hsup, if_pos] at hp hn
      have hlt : (sendPacket c r.ptype r.payload r.now).2.1.nextPacketNumber
          < 2 ^ 32 := by
        rw [hn]; exact Nat.mod_lt _ (by norm_num)
      obtain ⟨ih1, ih2⟩ := ih (sendPacket c r.ptype r.payload r.now).2.1 hlt
      constructor
      · rw [hsm, ih1, hp, hn, countSupported_cons, if_pos hsup,
          List.append_assoc]
        congr 1
        rw [show 1 + countSupported rs = countSupported rs + 1 by omega,
          List.range_succ_eq_map]
        simp only [List.map_cons, List.map_map, List.singleton_append]
        congr 1
        · rw [Nat.add_zero, Nat.mod_eq_of_lt hc]
        · apply List.map_congr_left
          intro i hi
          simp only [Function.comp_apply, Nat.succ_eq_add_one,
            Nat.mod_add_mod]
          congr 1
          omega
      · rw [hsm, ih2, hn, countSupported_cons, if_pos hsup,
          Nat.mod_add_mod]
        congr 1
        omega
    · have hceq : (sendPacket c r.ptype r.payload r.now).2.1 = c :=
        sendPacket_unsupported c r.ptype r.payload r.now
          (by simpa using hsup)
      obtain ⟨ih1, ih2⟩ := ih c hc
      rw [hsm, hceq, countSupported_cons, if_neg hsup]
      simpa using ⟨ih1, ih2⟩

/-- C3, counterexample.  m_nextPacketNumber is a uint32_t, so the packet
numbers recorded into the tracker wrap around: after 2^32 + 1 sends from a
fresh handler the recorded sequence starts with 0 and contains 0 again at
position 2^32, so it is not strictly increasing over the connection's
lifetime. -/
theorem C3_counterexample :
    ¬ List.Pairwise (fun a b => a < b)
      (recordedPns (sendMany connZero manyReqs)) := by
  intro hp
  obtain ⟨h1, -⟩ := sendMany_recordedPns manyReqs connZero (by decide)
  have hcount : countSupported manyReqs = 2 ^ 32 + 1 := by
    rw [manyReqs, countSupported_replicate]
    rfl
  rw [hcount] at h1
  rw [h1, show recordedPns connZero = [] from rfl, List.nil_append] at hp
  have hlen : ((List.range (2 ^ 32 + 1)).map
      (fun i => (connZero.nextPacketNumber + i) % 2 ^ 32)).length =
      2 ^ 32 + 1 := by
    rw [List.length_map, List.length_range]
  have hij := (List.pairwise_iff_getElem.mp hp) 0 (2 ^ 32)
    (by rw [hlen]; omega) (by rw [hlen]; omega) (by norm_num)
  simp only [List.getElem_map, List.getElem_range] at hij
  rw [show connZero.nextPacketNumber = 0 from rfl, Nat.zero_add,
    Nat.zero_add, Nat.zero_mod, Nat.mod_self] at hij
  exact Nat.lt_irrefl 0 hij

/-- C3, amended.  As long as the total number of framed sends keeps the
uint32_t counter from wrapping (counter + sends ≤ 2^32), the packet
numbers recorded into the sent-packet tracker of a fresh connection are
strictly increasing. -/
theorem C3_pns_increasing_before_wrap (c : Conn) (rs : List SendReq)
    (h0 : c.sentPackets = [])
    (hn : c.nextPacketNumber < 2 ^ 32)
    (hcap : c.nextPacketNumber + countSupported rs ≤ 2 ^ 32) :
    List.Pairwise (fun a b => a < b) (recordedPns (sendMany c rs)) := by
  obtain ⟨h1, -⟩ := sendMany_recordedPns rs c hn
  rw [h1, show recordedPns c = [] by simp [recordedPns, h0],
    List.nil_append]
  have hmap : (List.range (countSupported rs)).map
      (fun i => (c.nextPacketNumber + i) % 2 ^ 32) =
      (List.range (countSupported rs)).map
        (fun i => c.nextPacketNumber + i) := by
    apply List.map_congr_left
    intro i hi
    have := List.mem_range.mp hi
    exact Nat.mod_eq_of_lt (by omega)
  rw [hmap, List.pairwise_map]
  exact (List.pairwise_lt_range _).imp (fun h => by omega)

/-- Witness for C3's amended theorem: two sends from a fresh handler
record the strictly increasing packet numbers 0 and 1. -/
theorem C3_witness :
    connZero.sentPackets = [] ∧
    connZero.nextPacketNumber < 2 ^ 32 ∧
    connZero.nextPacketNumber +
      countSupported [{ ptype := .ONE_RTT, payload := [], now := 0 },
                      { ptype := .INITIAL, payload := [], now := 1 }] ≤
      2 ^ 32 ∧
    List.Pairwise (fun a b => a < b)
      (recordedPns (sendMany connZero
        [{ ptype := .ONE_RTT, payload := [], now := 0 },
         { ptype := .INITIAL, payload := [], now := 1 }])) :=
  ⟨rfl, by decide, by decide,
   C3_pns_increasing_before_wrap connZero
     [{ ptype := .ONE_RTT, payload := [], now := 0 },
      { ptype := .INITIAL, payload := [], now := 1 }]
     rfl (by decide) (by decide)⟩

end SatProxy
